import Mathlib

/-!
Verification of the X-Plorer backend IPC core (dispatcher, cancellation
registry, watch engine) against its natural-language specification.

The definitions below are a shallow embedding of the Python sources:
`backend/xplorer/protocol.py`, `backend/xplorer/server.py`,
`backend/xplorer/services/file_service.py` and
`backend/xplorer/services/watch_service.py`.  Python values that travel
through msgpack are modelled by `MVal`; Python exceptions are modelled by
explicit outcome constructors; external I/O (the filesystem, the native
Win32 calls, the out-of-scope collaborator services) is modelled by
oracle parameters that the theorems quantify over.
-/

namespace XPlorer

/-- A msgpack-decodable Python value.  Map keys are strings because the
server unpacks with msgpack's default `strict_map_key=True`, which only
admits `str`/`bytes` keys, and every dict built by the code itself uses
string keys. `nil` is Python `None`. -/
inductive MVal where
  | nil
  | bool (b : Bool)
  | int (n : Int)
  | str (s : String)
  | list (elems : List MVal)
  | map (entries : List (String × MVal))

/-- Python truthiness (`if x:`) for the modelled values: `None`, `False`,
`0`, `""`, `[]`, `{}` are falsy, everything else truthy. -/
def pyTruthy : MVal → Bool
  | .nil => false
  | .bool b => b
  | .int n => n != 0
  | .str s => s != ""
  | .list es => !es.isEmpty
  | .map es => !es.isEmpty

/-- `isEmpty`-free helper: whether a value is Python `None`. -/
def MVal.isNil : MVal → Bool
  | .nil => true
  | _ => false

/-- The Python type name of a value, used for exception messages. -/
def pyTypeName : MVal → String
  | .nil => "NoneType"
  | .bool _ => "bool"
  | .int _ => "int"
  | .str _ => "str"
  | .list _ => "list"
  | .map _ => "dict"

/-- Message of the `AttributeError` raised by `x.get(...)` when `x` is not
a dict. -/
def noGetAttr (v : MVal) : String :=
  pyTypeName v ++ " object has no attribute get"

/-- `str()` of a hashable scalar value (used in the f-string
`f"Unknown action: {request.action}"`; at that point the action cannot be
a list or dict, those raised `TypeError` earlier in the dict lookup). -/
def pyToStrScalar : MVal → String
  | .nil => "None"
  | .bool true => "True"
  | .bool false => "False"
  | .int n => toString n
  | .str s => s
  | .list _ => ""
  | .map _ => ""

/-- Python dict `get` with default, for the decoded msgpack maps: when a
key occurs several times in the raw encoding, dict construction keeps the
last occurrence, hence the lookup over the reversed entry list. -/
def mgetD (entries : List (String × MVal)) (k : String) (d : MVal) : MVal :=
  match entries.reverse.find? (fun p => p.1 == k) with
  | some p => p.2
  | none => d

/-- A Python dict key after hashing/equality normalisation: `True` and `1`
are the same key, so booleans collapse into integers. -/
inductive PyKey where
  | knil
  | kint (n : Int)
  | kstr (s : String)
deriving DecidableEq, Repr

/-- Key view of a value: `none` means the value is unhashable (a `list`
or `dict`), so using it as a dict key raises `TypeError`. -/
def MVal.toKey : MVal → Option PyKey
  | .nil => some .knil
  | .bool b => some (.kint (if b then 1 else 0))
  | .int n => some (.kint n)
  | .str s => some (.kstr s)
  | .list _ => none
  | .map _ => none

/-- `ErrorCode` enumeration from `protocol.py`. -/
inductive ErrorCode where
  | PATH_NOT_FOUND
  | ACCESS_DENIED
  | FILE_EXISTS
  | DIRECTORY_NOT_EMPTY
  | INVALID_PATH
  | DISK_FULL
  | OPERATION_CANCELLED
  | OPERATION_FAILED
  | CONNECTION_FAILED
  | TIMEOUT
  | INVALID_REQUEST
  | UNKNOWN
deriving DecidableEq, Repr

/-- Wire string of an error code (the `str`-valued enum members). -/
def ErrorCode.toWire : ErrorCode → String
  | .PATH_NOT_FOUND => "PATH_NOT_FOUND"
  | .ACCESS_DENIED => "ACCESS_DENIED"
  | .FILE_EXISTS => "FILE_EXISTS"
  | .DIRECTORY_NOT_EMPTY => "DIRECTORY_NOT_EMPTY"
  | .INVALID_PATH => "INVALID_PATH"
  | .DISK_FULL => "DISK_FULL"
  | .OPERATION_CANCELLED => "OPERATION_CANCELLED"
  | .OPERATION_FAILED => "OPERATION_FAILED"
  | .CONNECTION_FAILED => "CONNECTION_FAILED"
  | .TIMEOUT => "TIMEOUT"
  | .INVALID_REQUEST => "INVALID_REQUEST"
  | .UNKNOWN => "UNKNOWN"

/-- `XPError` dataclass: `details` defaults to Python `None`. -/
structure XPError where
  code : ErrorCode
  message : String
  details : MVal := MVal.nil

/-- `XPResponse` dataclass: `data` defaults to `None` (`MVal.nil`),
`error` to `None`. -/
structure XPResponse where
  id : MVal
  success : Bool
  data : MVal := MVal.nil
  error : Option XPError := none

/-- `XPRequest` dataclass; the fields are whatever the decoded payload
supplied, with the dispatcher's defaults. -/
structure XPRequest where
  id : MVal
  action : MVal
  params : MVal

/-- `XPResponse.to_dict`: `data` is included only when it `is not None`,
`error` only when present, and `error.details` only when `is not None`. -/
def XPResponse.to_dict (r : XPResponse) : List (String × MVal) :=
  [("id", r.id), ("success", MVal.bool r.success)]
  ++ (if r.data.isNil then [] else [("data", r.data)])
  ++ (match r.error with
      | none => []
      | some e =>
        [("error", MVal.map ([("code", MVal.str e.code.toWire),
                              ("message", MVal.str e.message)]
          ++ (if e.details.isNil then [] else [("details", e.details)])))])

/-- Whether an encoded map carries a given key. -/
def hasKey (k : String) (d : List (String × MVal)) : Bool :=
  d.any (fun p => p.1 == k)

/-- The `ACTIONS` registry from `protocol.py`, action name to handler
method name, in source order. -/
def ACTIONS : List (String × String) :=
  [("fs.list", "handle_fs_list"),
   ("fs.info", "handle_fs_info"),
   ("fs.copy", "handle_fs_copy"),
   ("fs.move", "handle_fs_move"),
   ("fs.delete", "handle_fs_delete"),
   ("fs.rename", "handle_fs_rename"),
   ("fs.mkdir", "handle_fs_mkdir"),
   ("fs.writeFile", "handle_fs_write_file"),
   ("fs.folderStats", "handle_fs_folder_stats"),
   ("fs.folderSize", "handle_fs_folder_size"),
   ("fs.drives", "handle_fs_drives"),
   ("fs.watch", "handle_fs_watch"),
   ("fs.unwatch", "handle_fs_unwatch"),
   ("fs.search", "handle_fs_search"),
   ("clipboard.copy", "handle_clipboard_copy"),
   ("clipboard.cut", "handle_clipboard_cut"),
   ("clipboard.paste", "handle_clipboard_paste"),
   ("clipboard.get", "handle_clipboard_get"),
   ("clipboard.clear", "handle_clipboard_clear"),
   ("shell.thumbnail", "handle_shell_thumbnail"),
   ("shell.icon", "handle_shell_icon"),
   ("shell.contextmenu", "handle_shell_contextmenu"),
   ("shell.execute", "handle_shell_execute"),
   ("shell.properties", "handle_shell_properties"),
   ("shell.open", "handle_shell_open"),
   ("shell.recent", "handle_shell_recent"),
   ("shell.createShortcut", "handle_shell_create_shortcut"),
   ("shell.knownFolders", "handle_shell_known_folders"),
   ("theme.list", "handle_theme_list"),
   ("theme.get", "handle_theme_get"),
   ("theme.save", "handle_theme_save"),
   ("theme.delete", "handle_theme_delete"),
   ("sevenzip.check", "handle_sevenzip_check"),
   ("sevenzip.addToArchive", "handle_sevenzip_add"),
   ("sevenzip.addToArchiveDialog", "handle_sevenzip_add_dialog"),
   ("sevenzip.openArchive", "handle_sevenzip_open"),
   ("sevenzip.extract", "handle_sevenzip_extract"),
   ("cancel", "handle_cancel")]

/-! ### Cancellation registry (`XPServer._cancellation_tokens`)

The registry is the dict `{operation_id: asyncio.Event}`.  A token is
modelled by its signalled flag (the only mutable state of an
`asyncio.Event`); keys are `PyKey`s so that the Python hashing rules for
the caller-supplied `operation_id` values are kept. -/

/-- The token registry; at the Python level a dict, here an association
list whose keys are kept distinct by the operations. -/
def Registry := List (PyKey × Bool)

/-- Dict lookup in the registry. -/
def lookupToken (k : PyKey) (ts : Registry) : Option Bool :=
  (List.find? (fun p => p.1 == k) ts).map (fun p => p.2)

/-- `XPServer._create_cancellation_token`: `self._cancellation_tokens[operation_id] = Event()`.
Dict assignment replaces any entry under the same key; the fresh event is
unsignalled. -/
def createToken (k : PyKey) (ts : Registry) : Registry :=
  List.filter (fun p => !(p.1 == k)) ts ++ [(k, false)]

/-- `XPServer._cleanup_token`: `self._cancellation_tokens.pop(operation_id, None)`. -/
def cleanupToken (k : PyKey) (ts : Registry) : Registry :=
  List.filter (fun p => !(p.1 == k)) ts

/-- `XPServer._cancel_operation`: pop the token; if one was registered,
signal it (`token.set()`) and report `True`, else report `False`.  An
`asyncio.Event` object is always truthy, so `if token:` is exactly
"a token was registered". -/
def cancelOperation (k : PyKey) (ts : Registry) : Bool × Registry :=
  match lookupToken k ts with
  | some _ => (true, cleanupToken k ts)
  | none => (false, ts)

/-! ### Handler outcomes and the `FileService` call protocol -/

/-- Outcome of awaiting a handler coroutine, as discriminated by the
`except` clauses of `XPServer._route_request`: a returned value, a
`FileNotFoundError`, a `PermissionError`, or any other exception. -/
inductive PyOutcome where
  | ret (v : MVal)
  | fileNotFound (msg : String)
  | permission (msg : String)
  | exc (msg : String)

/-- Whether a handler outcome is a non-typed exception. -/
def PyOutcome.isExc : PyOutcome → Bool
  | .exc _ => true
  | _ => false

/-- A positional argument at a Python call site: either an ordinary value
or a cancellation-token object (an `asyncio.Event` or `None`), which is
not a msgpack value. -/
inductive PyArg where
  | val (v : MVal)
  | token (t : Option PyKey)

/-- Behaviour of the `FileService` method bodies when reached with a
well-formed argument list; they perform filesystem I/O, which the
theorems quantify over. -/
structure FSBehavior where
  list_directory : MVal → PyOutcome
  get_folder_size : MVal → PyOutcome
  search : MVal → MVal → MVal → PyOutcome

/-- Call protocol of `FileService.list_directory(self, path)`: the `def`
has exactly one parameter besides `self`, so a call with any other number
of positional arguments raises `TypeError` before the body runs. -/
def callListDirectory (fsvc : FSBehavior) (args : List PyArg) : PyOutcome :=
  match args with
  | [PyArg.val path] => fsvc.list_directory path
  | _ => .exc ("list_directory() takes 2 positional arguments but "
      ++ toString (args.length + 1) ++ " were given")

/-- Call protocol of `FileService.get_folder_size(self, path)`: one
parameter besides `self`. -/
def callGetFolderSize (fsvc : FSBehavior) (args : List PyArg) : PyOutcome :=
  match args with
  | [PyArg.val path] => fsvc.get_folder_size path
  | _ => .exc ("get_folder_size() takes 2 positional arguments but "
      ++ toString (args.length + 1) ++ " were given")

/-- Call protocol of `FileService.search(self, path, query, recursive=True)`:
two or three positional arguments besides `self`. -/
def callSearch (fsvc : FSBehavior) (args : List PyArg) : PyOutcome :=
  match args with
  | [PyArg.val p, PyArg.val q] => fsvc.search p q (.bool true)
  | [PyArg.val p, PyArg.val q, PyArg.val r] => fsvc.search p q r
  | _ => .exc ("search() takes from 3 to 4 positional arguments but "
      ++ toString (args.length + 1) ++ " were given")

/-! ### Watch engine state (`WatchService`) -/

/-- One entry of `WatchService.watches`: the native directory handle and
the `recursive` flag. -/
structure WatchInfo where
  handle : Int
  recursive : Bool

/-- The mutable state of a `WatchService`: the per-path subscription dict
and the `running` flag. -/
structure WatchState where
  watches : List (String × WatchInfo)
  running : Bool

/-! ### Server state and handlers -/

/-- The server-owned mutable state the dispatcher can reach: the
cancellation-token registry and the watch service's state. -/
structure ServerState where
  tokens : Registry
  watchState : WatchState

/-- Behaviour of the pass-through handlers (clipboard, shell, theme,
sevenzip, fs.info, ...): out-of-scope collaborators invoked with the
request params, free to produce any outcome and state. -/
def Oracle := String → MVal → ServerState → PyOutcome × ServerState

/-- The environment of externally-determined behaviour a dispatch run is
parameterised by. -/
structure Env where
  oracle : Oracle
  fsvc : FSBehavior

/-- `XPServer.handle_cancel`: read `operation_id` from the params; a falsy
id short-circuits to `cancelled=False`; an unhashable id makes the dict
`pop` raise `TypeError`; otherwise pop-and-signal.  Calling `.get` on a
non-dict params raises `AttributeError`. -/
def handle_cancel (params : MVal) (ts : Registry) : PyOutcome × Registry :=
  match params with
  | .map ps =>
    let oid := mgetD ps "operation_id" .nil
    if pyTruthy oid then
      match oid.toKey with
      | some k =>
        let r := cancelOperation k ts
        (.ret (.map [("cancelled", .bool r.1), ("operation_id", oid)]), r.2)
      | none => (.exc ("unhashable type: " ++ pyTypeName oid), ts)
    else
      (.ret (.map [("cancelled", .bool false), ("operation_id", oid)]), ts)
  | v => (.exc (noGetAttr v), ts)

/-- `XPServer.handle_fs_list`: optionally create a cancellation token,
then call `self.file_service.list_directory(path, cancel_token)` — two
positional arguments against a one-parameter signature — and in the
`finally` clause clean the token up. -/
def handle_fs_list (fsvc : FSBehavior) (params : MVal) (ts : Registry) :
    PyOutcome × Registry :=
  match params with
  | .map ps =>
    let path := mgetD ps "path" (.str "")
    let oid := mgetD ps "operation_id" .nil
    if pyTruthy oid then
      match oid.toKey with
      | some k =>
        let ts1 := createToken k ts
        let outcome := callListDirectory fsvc [.val path, .token (some k)]
        (outcome, cleanupToken k ts1)
      | none => (.exc ("unhashable type: " ++ pyTypeName oid), ts)
    else
      (callListDirectory fsvc [.val path, .token none], ts)
  | v => (.exc (noGetAttr v), ts)

/-- `XPServer.handle_fs_folder_size`: same token bookkeeping, then
`self.file_service.get_folder_size(path, cancel_token)` — again one
positional argument too many. -/
def handle_fs_folder_size (fsvc : FSBehavior) (params : MVal) (ts : Registry) :
    PyOutcome × Registry :=
  match params with
  | .map ps =>
    let path := mgetD ps "path" (.str "")
    let oid := mgetD ps "operation_id" .nil
    if pyTruthy oid then
      match oid.toKey with
      | some k =>
        let ts1 := createToken k ts
        let outcome := callGetFolderSize fsvc [.val path, .token (some k)]
        (outcome, cleanupToken k ts1)
      | none => (.exc ("unhashable type: " ++ pyTypeName oid), ts)
    else
      (callGetFolderSize fsvc [.val path, .token none], ts)
  | v => (.exc (noGetAttr v), ts)

/-- `XPServer.handle_fs_search`: token bookkeeping, then
`self.file_service.search(path, query, recursive, cancel_token)` — four
positional arguments against a signature taking at most three. -/
def handle_fs_search (fsvc : FSBehavior) (params : MVal) (ts : Registry) :
    PyOutcome × Registry :=
  match params with
  | .map ps =>
    let path := mgetD ps "path" (.str "")
    let query := mgetD ps "query" (.str "")
    let recursive := mgetD ps "recursive" (.bool true)
    let oid := mgetD ps "operation_id" .nil
    if pyTruthy oid then
      match oid.toKey with
      | some k =>
        let ts1 := createToken k ts
        let outcome := callSearch fsvc
          [.val path, .val query, .val recursive, .token (some k)]
        (outcome, cleanupToken k ts1)
      | none => (.exc ("unhashable type: " ++ pyTypeName oid), ts)
    else
      (callSearch fsvc [.val path, .val query, .val recursive, .token none], ts)
  | v => (.exc (noGetAttr v), ts)

/-- Dispatch from handler method name to handler body.  The four handlers
whose bodies touch the server-owned state are embedded concretely; the
remaining catalogue entries are pass-through calls into out-of-scope
collaborator services, modelled by the oracle. -/
def invokeHandler (env : Env) (name : String) (params : MVal)
    (st : ServerState) : PyOutcome × ServerState :=
  if name == "handle_cancel" then
    let r := handle_cancel params st.tokens
    (r.1, { st with tokens := r.2 })
  else if name == "handle_fs_list" then
    let r := handle_fs_list env.fsvc params st.tokens
    (r.1, { st with tokens := r.2 })
  else if name == "handle_fs_folder_size" then
    let r := handle_fs_folder_size env.fsvc params st.tokens
    (r.1, { st with tokens := r.2 })
  else if name == "handle_fs_search" then
    let r := handle_fs_search env.fsvc params st.tokens
    (r.1, { st with tokens := r.2 })
  else
    env.oracle name params st

/-! ### The dispatcher (`XPServer._route_request`, `XPServer._handle_request`) -/

/-- Result of `ACTIONS.get(request.action)`: a dict lookup with an
unhashable key raises `TypeError`; a hashable key either finds a handler
name or misses (no action in the catalogue has an integer, boolean or
`None` name). -/
inductive ActionLookup where
  | unhashableKey (msg : String)
  | found (handlerName : String)
  | missing

/-- `ACTIONS.get(request.action)` under Python dict-key semantics. -/
def lookupAction : MVal → ActionLookup
  | .list _ => .unhashableKey "unhashable type: list"
  | .map _ => .unhashableKey "unhashable type: dict"
  | .str s =>
    match ACTIONS.find? (fun p => p.1 == s) with
    | some p => .found p.2
    | none => .missing
  | _ => .missing

/-- Result of `_route_request`: either a well-formed response together
with the post-state, or an exception escaping the coroutine (only the
`ACTIONS.get` line can raise outside the `try`). -/
inductive RouteResult where
  | ok (resp : XPResponse) (st : ServerState)
  | raised (msg : String) (st : ServerState)

/-- `XPServer._route_request`: resolve the action name, reject unknown
actions with `INVALID_REQUEST`, otherwise await the handler inside
`try/except FileNotFoundError/except PermissionError/except Exception`,
mapping the outcome to `success` / `PATH_NOT_FOUND` / `ACCESS_DENIED` /
`UNKNOWN`.  Every handler name in `ACTIONS` resolves to a method, so the
`Handler not implemented` branch of the source is unreachable. -/
def route_request (env : Env) (req : XPRequest) (st : ServerState) :
    RouteResult :=
  match lookupAction req.action with
  | .unhashableKey m => .raised m st
  | .missing =>
    .ok { id := req.id, success := false,
          error := some { code := .INVALID_REQUEST,
                          message := "Unknown action: " ++ pyToStrScalar req.action } } st
  | .found name =>
    match invokeHandler env name req.params st with
    | (.ret v, st') => .ok { id := req.id, success := true, data := v } st'
    | (.fileNotFound m, st') =>
      .ok { id := req.id, success := false,
            error := some { code := .PATH_NOT_FOUND, message := m } } st'
    | (.permission m, st') =>
      .ok { id := req.id, success := false,
            error := some { code := .ACCESS_DENIED, message := m } } st'
    | (.exc m, st') =>
      .ok { id := req.id, success := false,
            error := some { code := .UNKNOWN, message := m } } st'

/-- How `msgpack.unpackb(message, raw=False)` ended, for an arbitrary
inbound byte string: a `msgpack.UnpackException` (truncated/oversized
input), some other exception (`ExtraData` is a plain `ValueError`; so is
the `strict_map_key` rejection of non-string map keys), or a decoded
value. -/
inductive DecodeOutcome where
  | unpackExc
  | otherExc (msg : String)
  | ok (v : MVal)

/-- Result of `XPServer._handle_request` for one inbound frame: either
exactly one response is sent back, or an exception escaped the coroutine
and no response was ever sent. -/
inductive HandleResult where
  | sent (resp : XPResponse) (st : ServerState)
  | crashed (st : ServerState)

/-- `XPServer._handle_request`.  On a decoded dict the request is built
with `data.get` defaults and routed; a raise from routing is caught by
`except Exception`, which can still read the id from `data`.  On an
`UnpackException` the fallback response has empty id and
`INVALID_REQUEST`.  On any other exception, `data` was never bound, so
`"data" in dir()` is false and the fallback id is `""` with code
`UNKNOWN`.  When the payload decodes to a non-dict, building the request
raises `AttributeError`; the `except Exception` block then evaluates
`data.get("id", "")` on the non-dict, which raises `AttributeError`
again, so the coroutine dies and no response is sent. -/
def handle_request (env : Env) (dec : DecodeOutcome) (st : ServerState) :
    HandleResult :=
  match dec with
  | .unpackExc =>
    .sent { id := .str "", success := false,
            error := some { code := .INVALID_REQUEST,
                            message := "Failed to decode request" } } st
  | .otherExc m =>
    .sent { id := .str "", success := false,
            error := some { code := .UNKNOWN, message := m } } st
  | .ok v =>
    match v with
    | .map data =>
      let req : XPRequest :=
        { id := mgetD data "id" (.str ""),
          action := mgetD data "action" (.str ""),
          params := mgetD data "params" (.map []) }
      match route_request env req st with
      | .ok resp st' => .sent resp st'
      | .raised m st' =>
        .sent { id := mgetD data "id" (.str ""), success := false,
                error := some { code := .UNKNOWN, message := m } } st'
    | _ => .crashed st

/-! ### Watch engine (`WatchService`) -/

/-- `FSEventType` enumeration from `protocol.py`. -/
inductive FSEventType where
  | CREATED
  | DELETED
  | MODIFIED
  | RENAMED
  | OVERFLOW
deriving DecidableEq, Repr

/-- A filesystem event as emitted by `WatchService._emit_event`: the
published `XPEvent` has `type="fs.changed"`, this `path`, and a data dict
`{"eventType": ...}` extended with `{"oldPath": ...}` exactly for rename
events (`oldPath` is the buffered old name, possibly `None`). -/
structure FSEvent where
  eventType : FSEventType
  path : String
  oldPath : Option String := none
deriving DecidableEq, Repr

/-- The `Action` field of a native `FILE_NOTIFY_INFORMATION` record. -/
inductive NotifyAction where
  | added
  | removed
  | modified
  | renamedOldName
  | renamedNewName
deriving DecidableEq, Repr

/-- One decoded native notification record: the action and the file name
relative to the watched directory. -/
structure NotifyRecord where
  action : NotifyAction
  fileName : String

/-- Outcome of one `ReadDirectoryChangesW` call in the watch loop: the
call can report failure (return value 0 with a `GetLastError` code), an
empty buffer, a batch of records, or the iteration body can raise (on a
non-Windows host the very first `ctypes.windll` access raises; record
parsing can also raise). -/
inductive ReadOutcome where
  | failed (err : Int)
  | emptyBatch
  | batch (records : List NotifyRecord)
  | raised (msg : String)

/-- The record-parsing part of `WatchService._watch_loop` for one buffer:
iterate records in order, emit `CREATED`/`DELETED`/`MODIFIED` directly,
buffer a `renamed-old-name` in `old_name`, and on `renamed-new-name`
emit one `RENAMED` with `data.oldPath` equal to the buffer, clearing it.
Returns the emitted events and the `old_name` buffer as it stands when
the batch ends (the source initialises `old_name` once per loop, not per
batch). -/
def processBatch (watchPath : String) (oldName : Option String) :
    List NotifyRecord → List FSEvent × Option String
  | [] => ([], oldName)
  | r :: rest =>
    let fullPath := watchPath ++ "\\" ++ r.fileName
    match r.action with
    | .added =>
      let t := processBatch watchPath oldName rest
      ({ eventType := .CREATED, path := fullPath } :: t.1, t.2)
    | .removed =>
      let t := processBatch watchPath oldName rest
      ({ eventType := .DELETED, path := fullPath } :: t.1, t.2)
    | .modified =>
      let t := processBatch watchPath oldName rest
      ({ eventType := .MODIFIED, path := fullPath } :: t.1, t.2)
    | .renamedOldName => processBatch watchPath (some fullPath) rest
    | .renamedNewName =>
      let t := processBatch watchPath none rest
      ({ eventType := .RENAMED, path := fullPath, oldPath := oldName } :: t.1, t.2)

/-- `WatchService._watch_loop`, driven by the successive outcomes of its
native reads (the loop runs in its own thread; this models one such
thread against an unchanging service state, which the loop itself never
mutates).  Per iteration: stop if the service stopped or the path left
the watch table; a failed read with `ERROR_OPERATION_ABORTED` (995)
breaks silently; any other failed read is logged and the loop continues
with no event; an empty buffer continues; a batch is decoded with the
persistent `old_name` buffer; a raise emits a single `OVERFLOW` event for
the watched path (when still running) and breaks — without removing the
path from the watch table. -/
def watchLoop (path : String) (st : WatchState) (oldName : Option String) :
    List ReadOutcome → List FSEvent
  | [] => []
  | r :: rest =>
    if st.running && st.watches.any (fun p => p.1 == path) then
      match r with
      | .failed err =>
        if err == 995 then [] else watchLoop path st oldName rest
      | .emptyBatch => watchLoop path st oldName rest
      | .batch recs =>
        let t := processBatch path oldName recs
        t.1 ++ watchLoop path st t.2 rest
      | .raised _ =>
        if st.running then [{ eventType := .OVERFLOW, path := path }] else []
    else []

/-- Outcome of `WatchService.watch`: an early return because the path is
already watched (no native call is attempted), a new native subscription
whose loop was started, or a raise propagated to the caller. -/
inductive WatchOutcome where
  | noop
  | subscribed (handle : Int)
  | failed (msg : String)
deriving Repr

/-- Outcome of the `CreateFileW` call inside `watch`: a valid handle, the
`INVALID_HANDLE_VALUE` sentinel with a `GetLastError` code (the source
then raises `OSError`), or a raise from the native call itself. -/
inductive NativeOpen where
  | ok (handle : Int)
  | invalidHandle (err : Int)
  | raised (msg : String)

/-- `WatchService.watch`: if the path is already in the watch table,
return immediately; otherwise open the directory handle, record the
subscription, and start the watch loop.  On failure nothing is recorded
and the exception propagates to the caller. -/
def WatchService.watch (native : NativeOpen) (path : String)
    (recursive : Bool) (st : WatchState) : WatchOutcome × WatchState :=
  if st.watches.any (fun p => p.1 == path) then (.noop, st)
  else
    match native with
    | .ok h =>
      (.subscribed h,
       { st with watches := st.watches ++ [(path, { handle := h, recursive := recursive })] })
    | .invalidHandle err =>
      (.failed ("CreateFileW failed with error " ++ toString err), st)
    | .raised m => (.failed m, st)

/-- `WatchService.unwatch`: pop the path from the watch table; when a
subscription was present its handle is cancelled and closed (errors there
are swallowed by the inner `try`), and in every case the call returns
normally. -/
def WatchService.unwatch (path : String) (st : WatchState) : WatchState :=
  { st with watches := st.watches.filter (fun p => !(p.1 == path)) }

/-! ### Concrete fixtures used by the theorems -/

/-- A collaborator oracle whose handlers all return Python `None`
(e.g. `ThemeService.get_theme` on a theme file whose JSON content is
`null` returns `None`), leaving the state alone. -/
def oracleNil : Oracle := fun _ _ st => (.ret .nil, st)

/-- A `FileService` behaviour for the (unreachable) well-formed calls. -/
def fsvcNil : FSBehavior :=
  { list_directory := fun _ => .ret (.list []),
    get_folder_size := fun _ => .ret (.map []),
    search := fun _ _ _ => .ret (.list []) }

/-- Environment built from the concrete oracles. -/
def envNil : Env := { oracle := oracleNil, fsvc := fsvcNil }

/-- The server state at startup: no tokens, no watches, service running. -/
def stEmpty : ServerState :=
  { tokens := [], watchState := { watches := [], running := true } }

/-- A server state in which the token for operation id `op1` exists and
has already been signalled. -/
def stSignalled : ServerState :=
  { tokens := [(.kstr "op1", true)], watchState := { watches := [], running := true } }

/-- A watch-service state with one active subscription on `C:\w`. -/
def stWatchW : WatchState :=
  { watches := [("C:\\w", { handle := 7, recursive := true })], running := true }

/-! ### Helper lemmas -/

/-- Looking a key up after `cleanupToken` removed it finds nothing. -/
theorem lookupToken_cleanupToken_self (k : PyKey) (ts : Registry) :
    lookupToken k (cleanupToken k ts) = none := by
  have hfind : List.find? (fun p => p.1 == k)
      (List.filter (fun p => !(p.1 == k)) ts) = none := by
    rw [List.find?_eq_none]
    intro x hx
    have := (List.mem_filter.mp hx).2
    simpa using this
  simp [lookupToken, cleanupToken, hfind]

/-- `cleanupToken` keeps the registry's key list duplicate-free. -/
theorem nodup_cleanupToken (k : PyKey) (ts : Registry)
    (h : (ts.map Prod.fst).Nodup) :
    ((cleanupToken k ts).map Prod.fst).Nodup :=
  h.sublist (List.Sublist.map _ (List.filter_sublist ts))

/-- `createToken` keeps the registry's key list duplicate-free. -/
theorem nodup_createToken (k : PyKey) (ts : Registry)
    (h : (ts.map Prod.fst).Nodup) :
    ((createToken k ts).map Prod.fst).Nodup := by
  have h1 : ((List.filter (fun p => !(p.1 == k)) ts).map Prod.fst).Nodup :=
    h.sublist (List.Sublist.map _ (List.filter_sublist ts))
  have h2 : k ∉ (List.filter (fun p => !(p.1 == k)) ts).map Prod.fst := by
    intro hk
    rcases List.mem_map.mp hk with ⟨p, hp, hfst⟩
    have := List.of_mem_filter hp
    simp [hfst] at this
  have hgoal : ((List.filter (fun p => !(p.1 == k)) ts).map Prod.fst ++ [k]).Nodup := by
    rw [List.nodup_append]
    refine ⟨h1, List.nodup_singleton k, fun a ha hb => ?_⟩
    have hak : a = k := by simpa using hb
    exact h2 (hak ▸ ha)
  simpa [createToken] using hgoal

/-- `cancelOperation` keeps the registry's key list duplicate-free. -/
theorem nodup_cancelOperation (k : PyKey) (ts : Registry)
    (h : (ts.map Prod.fst).Nodup) :
    ((cancelOperation k ts).2.map Prod.fst).Nodup := by
  unfold cancelOperation
  cases lookupToken k ts with
  | some b => exact nodup_cleanupToken k ts h
  | none => exact h

/-! ### Claim theorems -/

/-- C1: a payload that msgpack-decodes successfully but is not a map (here
the integer `5`) makes `_handle_request` crash without sending any
response: building the request raises `AttributeError`, and the
`except Exception` fallback re-raises while evaluating `data.get` on the
non-map, so the request is silently dropped — contradicting the claim
that every input byte string gets exactly one response (with empty id
when none can be recovered). -/
theorem nonmap_payload_drops_response :
    handle_request envNil (DecodeOutcome.ok (MVal.int 5)) stEmpty
      = HandleResult.crashed stEmpty := rfl

/-- C3: an `fs.folderSize` request carrying `operation_id="op1"`, issued
while the token for `op1` is already signalled, fails with error code
`UNKNOWN` (the handler's call to `FileService.get_folder_size(path,
cancel_token)` raises `TypeError` — the method accepts no token), not
with `OPERATION_CANCELLED`; no code path of the repository produces
`OPERATION_CANCELLED`. -/
theorem folder_size_cancelled_yields_unknown :
    route_request envNil
      { id := .str "9", action := .str "fs.folderSize",
        params := .map [("path", .str "C:\\big"), ("operation_id", .str "op1")] }
      stSignalled
    = RouteResult.ok
        { id := .str "9", success := false,
          error := some { code := .UNKNOWN,
                          message := "get_folder_size() takes 2 positional arguments but 3 were given" } }
        stEmpty := rfl

/-- C4: a raising native read on the watched path `C:\w` emits exactly
one `OVERFLOW` event and stops the loop (a later batch is not decoded) —
but the path is never removed from the watch table, so the subsequent
`watch("C:\w")` short-circuits as already-watching (outcome `noop`, no
new native subscription), contradicting the claim that the path ends up
in the `Unwatched` state. -/
theorem overflow_leaves_path_watched :
    watchLoop "C:\\w" stWatchW none
        [ReadOutcome.raised "native read failed",
         ReadOutcome.batch [{ action := .added, fileName := "x.txt" }]]
      = [{ eventType := .OVERFLOW, path := "C:\\w" }]
    ∧ WatchService.watch (NativeOpen.ok 9) "C:\\w" true stWatchW
      = (WatchOutcome.noop, stWatchW) := ⟨rfl, rfl⟩

/-- C5 counterexample: a `renamed-old-name("a.txt")` record whose batch
ends with no following `renamed-new-name` record emits nothing at the
time, but its buffered name survives the batch boundary: the next batch's
`renamed-new-name("b.txt")` record emits a `RENAMED` event carrying the
stale old path `C:\w\a.txt` — the stale event the claim says is never
emitted. -/
theorem stale_rename_across_batches :
    watchLoop "C:\\w" stWatchW none
        [ReadOutcome.batch [{ action := .renamedOldName, fileName := "a.txt" }],
         ReadOutcome.batch [{ action := .renamedNewName, fileName := "b.txt" }]]
      = [{ eventType := .RENAMED, path := "C:\\w\\b.txt",
           oldPath := some "C:\\w\\a.txt" }] := rfl

/-- C10 counterexample: a request routed to a handler that returns Python
`None` (here `theme.get` reading a theme file whose JSON content is
`null`) yields a `success=true` response whose encoding carries neither a
`data` nor an `error` field, contradicting "exactly one of data and error
is populated". -/
theorem success_response_with_neither_field :
    route_request envNil
      { id := .str "1", action := .str "theme.get", params := .map [] } stEmpty
      = RouteResult.ok { id := .str "1", success := true } stEmpty
    ∧ hasKey "data"
        (XPResponse.to_dict { id := .str "1", success := true }) = false
    ∧ hasKey "error"
        (XPResponse.to_dict { id := .str "1", success := true }) = false :=
  ⟨rfl, rfl, rfl⟩

/-- C5 (amended): within one batch, `[renamed-old-name(a),
renamed-new-name(b)]` produces exactly one `RENAMED` event whose path is
the new full name and whose `data.oldPath` is the old full name, and an
old-name record alone emits nothing within its batch — but the buffered
old name is carried out of the batch, so a later batch beginning with a
new-name record emits a `RENAMED` that pairs it with the stale old
name. -/
theorem rename_reconstruction (P a b : String) (o : Option String) :
    processBatch P none
        [{ action := .renamedOldName, fileName := a },
         { action := .renamedNewName, fileName := b }]
      = ([{ eventType := .RENAMED, path := P ++ "\\" ++ b,
            oldPath := some (P ++ "\\" ++ a) }], none)
    ∧ processBatch P o [{ action := .renamedOldName, fileName := a }]
      = ([], some (P ++ "\\" ++ a))
    ∧ watchLoop P { watches := [(P, { handle := 1, recursive := true })], running := true } none
        [ReadOutcome.batch [{ action := .renamedOldName, fileName := a }],
         ReadOutcome.batch [{ action := .renamedNewName, fileName := b }]]
      = [{ eventType := .RENAMED, path := P ++ "\\" ++ b,
           oldPath := some (P ++ "\\" ++ a) }] := by
  refine ⟨rfl, rfl, ?_⟩
  simp [watchLoop, processBatch]

/-- `handle_fs_list` raises on every input: either `params.get` raises
`AttributeError` on a non-dict, registering an unhashable operation id
raises `TypeError`, or the call to `FileService.list_directory` with the
extra cancellation-token argument raises `TypeError`. -/
theorem handle_fs_list_exc (fsvc : FSBehavior) (params : MVal) (ts : Registry) :
    ((handle_fs_list fsvc params ts).1).isExc = true := by
  cases params with
  | map ps =>
    unfold handle_fs_list
    by_cases h : pyTruthy (mgetD ps "operation_id" .nil)
    · cases hk : (mgetD ps "operation_id" MVal.nil).toKey with
      | some k => simp [h, hk, callListDirectory, PyOutcome.isExc]
      | none => simp [h, hk, PyOutcome.isExc]
    · simp [h, callListDirectory, PyOutcome.isExc]
  | nil => rfl
  | bool b => rfl
  | int n => rfl
  | str s => rfl
  | list es => rfl

/-- `handle_fs_folder_size` raises on every input, like
`handle_fs_list`. -/
theorem handle_fs_folder_size_exc (fsvc : FSBehavior) (params : MVal) (ts : Registry) :
    ((handle_fs_folder_size fsvc params ts).1).isExc = true := by
  cases params with
  | map ps =>
    unfold handle_fs_folder_size
    by_cases h : pyTruthy (mgetD ps "operation_id" .nil)
    · cases hk : (mgetD ps "operation_id" MVal.nil).toKey with
      | some k => simp [h, hk, callGetFolderSize, PyOutcome.isExc]
      | none => simp [h, hk, PyOutcome.isExc]
    · simp [h, callGetFolderSize, PyOutcome.isExc]
  | nil => rfl
  | bool b => rfl
  | int n => rfl
  | str s => rfl
  | list es => rfl

/-- `handle_fs_search` raises on every input, like `handle_fs_list`. -/
theorem handle_fs_search_exc (fsvc : FSBehavior) (params : MVal) (ts : Registry) :
    ((handle_fs_search fsvc params ts).1).isExc = true := by
  cases params with
  | map ps =>
    unfold handle_fs_search
    by_cases h : pyTruthy (mgetD ps "operation_id" .nil)
    · cases hk : (mgetD ps "operation_id" MVal.nil).toKey with
      | some k => simp [h, hk, callSearch, PyOutcome.isExc]
      | none => simp [h, hk, PyOutcome.isExc]
    · simp [h, callSearch, PyOutcome.isExc]
  | nil => rfl
  | bool b => rfl
  | int n => rfl
  | str s => rfl
  | list es => rfl

/-- C2: every `fs.list`, `fs.folderSize` or `fs.search` request — for any
request id, any params (with or without an `operation_id`), any registry
and any collaborator behaviour — yields a failure response with error
code `UNKNOWN`: the handler calls the `FileService` method with an extra
cancellation-token positional argument its signature does not accept, so
the call raises `TypeError` and never returns a listing, size or search
result. -/
theorem fs_cancellable_actions_always_unknown (env : Env) (st : ServerState)
    (rid params : MVal) :
    (∃ m st', route_request env { id := rid, action := .str "fs.list", params := params } st
      = RouteResult.ok { id := rid, success := false,
                         error := some { code := .UNKNOWN, message := m } } st')
    ∧ (∃ m st', route_request env { id := rid, action := .str "fs.folderSize", params := params } st
      = RouteResult.ok { id := rid, success := false,
                         error := some { code := .UNKNOWN, message := m } } st')
    ∧ (∃ m st', route_request env { id := rid, action := .str "fs.search", params := params } st
      = RouteResult.ok { id := rid, success := false,
                         error := some { code := .UNKNOWN, message := m } } st') := by
  refine ⟨?_, ?_, ?_⟩
  · rcases ho : handle_fs_list env.fsvc params st.tokens with ⟨o, ts'⟩
    have hx := handle_fs_list_exc env.fsvc params st.tokens
    rw [ho] at hx
    cases o with
    | exc m =>
      refine ⟨m, { tokens := ts', watchState := st.watchState }, ?_⟩
      simp [route_request, lookupAction, ACTIONS, invokeHandler, ho]
    | ret v => simp [PyOutcome.isExc] at hx
    | fileNotFound m => simp [PyOutcome.isExc] at hx
    | permission m => simp [PyOutcome.isExc] at hx
  · rcases ho : handle_fs_folder_size env.fsvc params st.tokens with ⟨o, ts'⟩
    have hx := handle_fs_folder_size_exc env.fsvc params st.tokens
    rw [ho] at hx
    cases o with
    | exc m =>
      refine ⟨m, { tokens := ts', watchState := st.watchState }, ?_⟩
      simp [route_request, lookupAction, ACTIONS, invokeHandler, ho]
    | ret v => simp [PyOutcome.isExc] at hx
    | fileNotFound m => simp [PyOutcome.isExc] at hx
    | permission m => simp [PyOutcome.isExc] at hx
  · rcases ho : handle_fs_search env.fsvc params st.tokens with ⟨o, ts'⟩
    have hx := handle_fs_search_exc env.fsvc params st.tokens
    rw [ho] at hx
    cases o with
    | exc m =>
      refine ⟨m, { tokens := ts', watchState := st.watchState }, ?_⟩
      simp [route_request, lookupAction, ACTIONS, invokeHandler, ho]
    | ret v => simp [PyOutcome.isExc] at hx
    | fileNotFound m => simp [PyOutcome.isExc] at hx
    | permission m => simp [PyOutcome.isExc] at hx

/-- C6: for every request resolved to a registered handler, the
dispatcher maps the handler's outcome by the fixed three-tier rule — a
returned value gives a success response carrying it, `FileNotFoundError`
gives `PATH_NOT_FOUND`, `PermissionError` gives `ACCESS_DENIED`, and any
other exception gives `UNKNOWN` with the exception's message preserved —
always under the request's own id. -/
theorem route_maps_handler_outcomes (env : Env) (req : XPRequest)
    (st : ServerState) (name : String)
    (h : lookupAction req.action = ActionLookup.found name) :
    (∀ v st', invokeHandler env name req.params st = (PyOutcome.ret v, st') →
      route_request env req st
        = RouteResult.ok { id := req.id, success := true, data := v } st')
    ∧ (∀ m st', invokeHandler env name req.params st = (PyOutcome.fileNotFound m, st') →
      route_request env req st
        = RouteResult.ok { id := req.id, success := false,
                           error := some { code := .PATH_NOT_FOUND, message := m } } st')
    ∧ (∀ m st', invokeHandler env name req.params st = (PyOutcome.permission m, st') →
      route_request env req st
        = RouteResult.ok { id := req.id, success := false,
                           error := some { code := .ACCESS_DENIED, message := m } } st')
    ∧ (∀ m st', invokeHandler env name req.params st = (PyOutcome.exc m, st') →
      route_request env req st
        = RouteResult.ok { id := req.id, success := false,
                           error := some { code := .UNKNOWN, message := m } } st') := by
  refine ⟨?_, ?_, ?_, ?_⟩ <;> intro m st' hio <;> simp [route_request, h, hio]

/-- Witness for C6: the `cancel` action resolves to `handle_cancel`,
whose return value on empty params is carried verbatim in a success
response. -/
theorem route_maps_handler_outcomes_witness :
    route_request envNil
      { id := .str "7", action := .str "cancel", params := .map [] } stEmpty
      = RouteResult.ok
          { id := .str "7", success := true,
            data := .map [("cancelled", .bool false), ("operation_id", .nil)] }
          stEmpty :=
  (route_maps_handler_outcomes envNil
    { id := .str "7", action := .str "cancel", params := .map [] }
    stEmpty "handle_cancel" rfl).1 _ _ rfl

/-- C7: cancelling an operation id twice yields `cancelled=true` then
`cancelled=false` whenever a token for it existed before the first call;
cancelling an unregistered id is a no-op returning `cancelled=false`; and
the registry operations preserve "at most one token per operation id". -/
theorem cancel_idempotent_and_registry (s : String) (ts : Registry) (b : Bool)
    (hs : s ≠ "") (hreg : lookupToken (PyKey.kstr s) ts = some b) :
    handle_cancel (.map [("operation_id", .str s)]) ts
      = (.ret (.map [("cancelled", .bool true), ("operation_id", .str s)]),
         cleanupToken (PyKey.kstr s) ts)
    ∧ handle_cancel (.map [("operation_id", .str s)]) (cleanupToken (PyKey.kstr s) ts)
      = (.ret (.map [("cancelled", .bool false), ("operation_id", .str s)]),
         cleanupToken (PyKey.kstr s) ts)
    ∧ (∀ (u : String) (ts₂ : Registry), lookupToken (PyKey.kstr u) ts₂ = none →
        handle_cancel (.map [("operation_id", .str u)]) ts₂
          = (.ret (.map [("cancelled", .bool false), ("operation_id", .str u)]), ts₂))
    ∧ (∀ (k : PyKey) (ts₃ : Registry), (ts₃.map Prod.fst).Nodup →
        ((createToken k ts₃).map Prod.fst).Nodup
        ∧ ((cancelOperation k ts₃).2.map Prod.fst).Nodup
        ∧ ((cleanupToken k ts₃).map Prod.fst).Nodup) := by
  have hbs : (s == "") = false := beq_eq_false_iff_ne.mpr hs
  refine ⟨?_, ?_, ?_, ?_⟩
  · simp [handle_cancel, mgetD, pyTruthy, bne, hbs, MVal.toKey, cancelOperation, hreg]
  · simp [handle_cancel, mgetD, pyTruthy, bne, hbs, MVal.toKey, cancelOperation,
          lookupToken_cleanupToken_self]
  · intro u ts₂ hu
    by_cases hub : u = ""
    · subst hub
      simp [handle_cancel, mgetD, pyTruthy, bne]
    · have hb2 : (u == "") = false := beq_eq_false_iff_ne.mpr hub
      simp [handle_cancel, mgetD, pyTruthy, bne, hb2, MVal.toKey, cancelOperation, hu]
  · intro k ts₃ hn
    exact ⟨nodup_createToken k ts₃ hn, nodup_cancelOperation k ts₃ hn,
           nodup_cleanupToken k ts₃ hn⟩

/-- Witness for C7: with the token for `op1` registered, the first cancel
reports `cancelled=true` and the second `cancelled=false`. -/
theorem cancel_idempotent_witness :
    handle_cancel (.map [("operation_id", .str "op1")]) [(PyKey.kstr "op1", false)]
      = (.ret (.map [("cancelled", .bool true), ("operation_id", .str "op1")]),
         cleanupToken (PyKey.kstr "op1") [(PyKey.kstr "op1", false)])
    ∧ handle_cancel (.map [("operation_id", .str "op1")])
        (cleanupToken (PyKey.kstr "op1") [(PyKey.kstr "op1", false)])
      = (.ret (.map [("cancelled", .bool false), ("operation_id", .str "op1")]),
         cleanupToken (PyKey.kstr "op1") [(PyKey.kstr "op1", false)]) :=
  ⟨(cancel_idempotent_and_registry "op1" [(PyKey.kstr "op1", false)] false
      (by decide) rfl).1,
   (cancel_idempotent_and_registry "op1" [(PyKey.kstr "op1", false)] false
      (by decide) rfl).2.1⟩

/-- C8: a request whose action is not in the catalogue is answered with
`success=false` and `INVALID_REQUEST` while the server state — the token
registry, the watch table, everything — is returned unchanged, and for
every collaborator behaviour alike (no handler is invoked). -/
theorem unknown_action_rejected (env : Env) (req : XPRequest) (st : ServerState)
    (h : lookupAction req.action = ActionLookup.missing) :
    route_request env req st
      = RouteResult.ok
          { id := req.id, success := false,
            error := some { code := .INVALID_REQUEST,
                            message := "Unknown action: " ++ pyToStrScalar req.action } }
          st := by
  simp [route_request, h]

/-- Witness for C8: a concrete unknown action name is rejected with
`INVALID_REQUEST` and an untouched state. -/
theorem unknown_action_rejected_witness :
    route_request envNil
      { id := .str "5", action := .str "bogus.action", params := .map [] } stEmpty
      = RouteResult.ok
          { id := .str "5", success := false,
            error := some { code := .INVALID_REQUEST,
                            message := "Unknown action: "
                              ++ pyToStrScalar (.str "bogus.action") } }
          stEmpty :=
  unknown_action_rejected envNil
    { id := .str "5", action := .str "bogus.action", params := .map [] } stEmpty rfl

/-- C9: watching an already-watched path is a no-op — outcome `noop`, no
native subscription attempted, table unchanged, for every possible native
outcome; unwatching an unwatched path is a no-op that returns normally;
and both operations keep the subscription table at one entry per path. -/
theorem watch_unwatch_discipline :
    (∀ (native : NativeOpen) (path : String) (rcv : Bool) (st : WatchState),
      st.watches.any (fun p => p.1 == path) = true →
      WatchService.watch native path rcv st = (WatchOutcome.noop, st))
    ∧ (∀ (path : String) (st : WatchState),
      st.watches.any (fun p => p.1 == path) = false →
      WatchService.unwatch path st = st)
    ∧ (∀ (native : NativeOpen) (path : String) (rcv : Bool) (st : WatchState),
      (st.watches.map Prod.fst).Nodup →
      ((WatchService.watch native path rcv st).2.watches.map Prod.fst).Nodup
      ∧ ((WatchService.unwatch path st).watches.map Prod.fst).Nodup) := by
  refine ⟨?_, ?_, ?_⟩
  · intro native path rcv st h
    simp [WatchService.watch, h]
  · intro path st h
    cases st with
    | mk w r =>
      simp only at h
      have hw : w.filter (fun p => !(p.1 == path)) = w := by
        apply List.filter_eq_self.mpr
        intro p hp
        have hpf : ¬((p.1 == path) = true) := by
          intro hpt
          have h2 : w.any (fun q => q.1 == path) = true :=
            List.any_eq_true.mpr ⟨p, hp, hpt⟩
          simp [h] at h2
        simp [hpf]
      simp [WatchService.unwatch, hw]
  · intro native path rcv st hn
    constructor
    · unfold WatchService.watch
      by_cases h : st.watches.any (fun p => p.1 == path) = true
      · simp [h, hn]
      · have hfalse : st.watches.any (fun p => p.1 == path) = false :=
          Bool.eq_false_iff.mpr h
        cases native with
        | ok hdl =>
          have hmem : path ∉ st.watches.map Prod.fst := by
            intro hmp
            rcases List.mem_map.mp hmp with ⟨p, hp, hfst⟩
            have h2 : st.watches.any (fun q => q.1 == path) = true :=
              List.any_eq_true.mpr ⟨p, hp, by simp [hfst]⟩
            rw [hfalse] at h2
            exact Bool.false_ne_true h2
          rw [hfalse]
          simp only [Bool.false_eq_true, if_false]
          rw [List.map_append, List.nodup_append]
          refine ⟨hn, List.nodup_singleton _, fun a ha hb => ?_⟩
          have hap : a = path := by simpa using hb
          exact hmem (hap ▸ ha)
        | invalidHandle e =>
          rw [hfalse]
          simpa using hn
        | raised m =>
          rw [hfalse]
          simpa using hn
    · have hsub : ((st.watches.filter (fun p => !(p.1 == path))).map Prod.fst).Nodup :=
        hn.sublist (List.Sublist.map _ (List.filter_sublist _))
      simpa [WatchService.unwatch] using hsub

/-- Witness for C9: a second `watch` on the already-watched `C:\w` is a
no-op, and `unwatch` on the unwatched `C:\x` leaves the state alone. -/
theorem watch_unwatch_discipline_witness :
    WatchService.watch (NativeOpen.ok 11) "C:\\w" true stWatchW
      = (WatchOutcome.noop, stWatchW)
    ∧ WatchService.unwatch "C:\\x" stWatchW = stWatchW :=
  ⟨watch_unwatch_discipline.1 (NativeOpen.ok 11) "C:\\w" true stWatchW rfl,
   watch_unwatch_discipline.2.1 "C:\\x" stWatchW rfl⟩

/-- Every response produced by `_route_request` is either a failure with
`data=None` and an error attached, or a success with no error. -/
theorem route_response_shape (env : Env) (req : XPRequest) (st : ServerState)
    (resp : XPResponse) (st' : ServerState)
    (h : route_request env req st = RouteResult.ok resp st') :
    (resp.success = false ∧ resp.data = MVal.nil ∧ ∃ e, resp.error = some e)
    ∨ (resp.success = true ∧ resp.error = none) := by
  unfold route_request at h
  split at h
  · simp at h
  · cases h
    exact Or.inl ⟨rfl, rfl, _, rfl⟩
  · split at h
    · cases h
      exact Or.inr ⟨rfl, rfl⟩
    · cases h
      exact Or.inl ⟨rfl, rfl, _, rfl⟩
    · cases h
      exact Or.inl ⟨rfl, rfl, _, rfl⟩
    · cases h
      exact Or.inl ⟨rfl, rfl, _, rfl⟩

/-- Every response `_handle_request` actually sends is either a failure
with `data=None` and an error attached, or a success with no error. -/
theorem sent_response_shape (env : Env) (dec : DecodeOutcome)
    (st : ServerState) (resp : XPResponse) (st' : ServerState)
    (h : handle_request env dec st = HandleResult.sent resp st') :
    (resp.success = false ∧ resp.data = MVal.nil ∧ ∃ e, resp.error = some e)
    ∨ (resp.success = true ∧ resp.error = none) := by
  cases dec with
  | unpackExc =>
    simp only [handle_request, HandleResult.sent.injEq] at h
    rw [← h.1]
    exact Or.inl ⟨rfl, rfl, _, rfl⟩
  | otherExc m =>
    simp only [handle_request, HandleResult.sent.injEq] at h
    rw [← h.1]
    exact Or.inl ⟨rfl, rfl, _, rfl⟩
  | ok v =>
    cases v with
    | map data =>
      simp only [handle_request] at h
      split at h
      · rename_i r2 s2 hr
        cases h
        exact route_response_shape env _ st _ _ hr
      · rename_i m s2 hr
        cases h
        exact Or.inl ⟨rfl, rfl, _, rfl⟩
    | nil => exact absurd h (by simp [handle_request])
    | bool b => exact absurd h (by simp [handle_request])
    | int n => exact absurd h (by simp [handle_request])
    | str s => exact absurd h (by simp [handle_request])
    | list es => exact absurd h (by simp [handle_request])

/-- C10 (amended): in every response the dispatcher sends, when `success`
is false the encoding carries an `error` field and omits `data`; when
`success` is true it carries no `error` field and carries `data` exactly
when the handler's returned value was not `None` — so a handler that
returns `None` produces a success response with neither field, and an
absent `data` is omitted from the encoding entirely rather than present
as null. -/
theorem response_field_discipline (env : Env) (dec : DecodeOutcome)
    (st : ServerState) (resp : XPResponse) (st' : ServerState)
    (h : handle_request env dec st = HandleResult.sent resp st') :
    (resp.success = false →
      hasKey "error" resp.to_dict = true ∧ hasKey "data" resp.to_dict = false)
    ∧ (resp.success = true →
      hasKey "error" resp.to_dict = false
      ∧ hasKey "data" resp.to_dict = !resp.data.isNil) := by
  rcases sent_response_shape env dec st resp st' h with ⟨hsf, hdn, e, herr⟩ | ⟨hst, hen⟩
  · refine ⟨fun _ => ?_, fun hTrue => ?_⟩
    · obtain ⟨i, su, d, er⟩ := resp
      simp only at hdn herr
      subst hdn
      subst herr
      simp [hasKey, XPResponse.to_dict, MVal.isNil]
    · rw [hsf] at hTrue
      exact absurd hTrue (by decide)
  · refine ⟨fun hFalse => ?_, fun _ => ?_⟩
    · rw [hst] at hFalse
      exact absurd hFalse (by decide)
    · obtain ⟨i, su, d, er⟩ := resp
      simp only at hen
      subst hen
      cases hd : d.isNil with
      | true => simp [hasKey, XPResponse.to_dict, hd]
      | false => simp [hasKey, XPResponse.to_dict, hd]

/-- Witness for the amended C10: the decode-failure response carries an
`error` field and no `data` field. -/
theorem response_field_discipline_witness :
    hasKey "error"
      (XPResponse.to_dict
        { id := .str "", success := false,
          error := some { code := .UNKNOWN, message := "boom" } }) = true
    ∧ hasKey "data"
      (XPResponse.to_dict
        { id := .str "", success := false,
          error := some { code := .UNKNOWN, message := "boom" } }) = false :=
  (response_field_discipline envNil (DecodeOutcome.otherExc "boom") stEmpty
    _ _ rfl).1 rfl

end XPlorer
